import Mathlib

/-!
Verification of the input-watcher aggregation core (src/main.rs).

The embedding models:
  * `InputState` — the shared counter structure (struct `InputState`),
    with `Instant` rendered as a natural number;
  * `EventType` — the raw input notification kinds delivered by the
    capture library (`rdev::EventType`), payloads kept where the code
    reads them (wheel deltas as signed integers) or ignores them
    (key/button codes, pointer coordinates);
  * `applyEvent` — the body of the listener callback's `match` on the
    event type plus the `update_activity` flag
    (`create_input_listener_thread`, src/main.rs lines 117-147);
  * `listenerCallback` — the full callback including the RUNNING check
    and the `lock()` result (lines 109-148), with the lock outcome made
    an explicit boolean parameter;
  * `drain` / `drainStep` — the heartbeat loop's copy-and-reset block
    (lines 331-354), again with the lock outcome explicit;
  * `makeDataMap`, `makeHeartbeatEvent`, `pulsetime` — the payload
    construction (lines 356-373), durations as integer seconds and the
    pulse window as a rational;
  * `sliceOf`, `sleepSlices`, `heartbeatEnd` — the end-of-iteration
    sleep logic (lines 388-414), durations in milliseconds, with the
    RUNNING flag at the i-th check given by a boolean function.

Counters are `u64` in the source; they are modelled as unbounded
naturals, since no realistic event sequence approaches 2^64 increments
and the claims under study are about the per-kind accounting, not about
machine-width wraparound.
-/

namespace AwWatcherInput

/-- Instants (`std::time::Instant`) modelled abstractly as naturals:
the code only ever stores a current instant and copies it around. -/
abbrev Instant := Nat

/-- The shared counter structure, struct `InputState` in src/main.rs. -/
structure InputState where
  presses : Nat
  clicks : Nat
  delta_x : Nat
  delta_y : Nat
  scroll_x : Nat
  scroll_y : Nat
  last_activity : Instant
deriving Repr, DecidableEq

/-- `InputState::default()`: all-zero counters, `last_activity` set to
the current instant (`Instant::now()` is the parameter `now`). -/
def InputState.default (now : Instant) : InputState :=
  { presses := 0, clicks := 0, delta_x := 0, delta_y := 0
    scroll_x := 0, scroll_y := 0, last_activity := now }

/-- Raw input notification kinds (`rdev::EventType`). Key and button
payloads are abstract codes; pointer-move coordinates are carried but
never read by the code (`x: _, y: _`); wheel deltas are signed
(`i64` in the source). -/
inductive EventType where
  | keyPress (key : Nat)
  | keyRelease (key : Nat)
  | buttonPress (button : Nat)
  | buttonRelease (button : Nat)
  | mouseMove (x y : Int)
  | wheel (delta_x delta_y : Int)
deriving Repr, DecidableEq

/-- Whether the callback's `match` fires one of the counting branches
and hence sets `update_activity = true` (src/main.rs lines 122-142). -/
def EventType.classified : EventType → Bool
  | .keyPress _ => true
  | .buttonPress _ => true
  | .mouseMove _ _ => true
  | .wheel _ _ => true
  | _ => false

/-- The body of the listener callback once the lock is held: the
`match` on the event type followed by the `update_activity` write of
`last_activity` (src/main.rs lines 117-147). `i64::unsigned_abs` is
`Int.natAbs`. -/
def applyEvent (e : EventType) (now : Instant) (s : InputState) : InputState :=
  let stepped : InputState :=
    match e with
    | .keyPress _ => { s with presses := s.presses + 1 }
    | .buttonPress _ => { s with clicks := s.clicks + 1 }
    | .mouseMove _ _ => { s with delta_x := s.delta_x + 1, delta_y := s.delta_y + 1 }
    | .wheel dx dy =>
        { s with scroll_x := s.scroll_x + dx.natAbs, scroll_y := s.scroll_y + dy.natAbs }
    | _ => s
  if e.classified then { stepped with last_activity := now } else stepped

/-- What the listener callback does with control after a notification:
`exitProcess` models `std::process::exit(0)`. -/
inductive CallbackAction where
  | exitProcess
  | continueListening
deriving Repr, DecidableEq

/-- The listener callback (src/main.rs lines 109-148): first the
RUNNING check (exit before touching shared state if false), then the
lock attempt (`if let Ok(mut state_guard) = state_clone.lock()`); a
failed lock drops the event. The pair is (control action, shared state
after the call). -/
def listenerCallback (running lockOk : Bool) (e : EventType) (now : Instant)
    (s : InputState) : CallbackAction × InputState :=
  if !running then (.exitProcess, s)
  else if lockOk then (.continueListening, applyEvent e now s)
  else (.continueListening, s)

/-- The successful drain (src/main.rs lines 332-349): copy every field
into the snapshot, then overwrite the shared state with
`InputState { last_activity, ..Default::default() }`; `now` is the
instant produced by the discarded `Instant::now()` inside
`Default::default()`. Returns (snapshot, new shared state). -/
def drain (now : Instant) (s : InputState) : InputState × InputState :=
  ({ presses := s.presses, clicks := s.clicks
     delta_x := s.delta_x, delta_y := s.delta_y
     scroll_x := s.scroll_x, scroll_y := s.scroll_y
     last_activity := s.last_activity },
   { InputState.default now with last_activity := s.last_activity })

/-- The whole drain block including the lock attempt (src/main.rs
lines 331-354): on lock failure the reported snapshot is
`InputState::default()` (fresh `now`) and the shared state is left
untouched. -/
def drainStep (lockOk : Bool) (now : Instant) (s : InputState) :
    InputState × InputState :=
  if lockOk then drain now s else (InputState.default now, s)

/-- Apply a list of (event, instant-of-arrival) notifications in
order, each through the locked callback body. -/
def applyEvents (events : List (EventType × Instant)) (s : InputState) : InputState :=
  events.foldl (fun st p => applyEvent p.fst p.snd st) s

/-- Number of key-press notifications in a sequence. -/
def countPresses : List (EventType × Instant) → Nat
  | [] => 0
  | p :: rest =>
      (match p.fst with | .keyPress _ => 1 | _ => 0) + countPresses rest

/-- Number of button-press notifications in a sequence. -/
def countClicks : List (EventType × Instant) → Nat
  | [] => 0
  | p :: rest =>
      (match p.fst with | .buttonPress _ => 1 | _ => 0) + countClicks rest

/-- Number of pointer-move notifications in a sequence. -/
def countMoves : List (EventType × Instant) → Nat
  | [] => 0
  | p :: rest =>
      (match p.fst with | .mouseMove _ _ => 1 | _ => 0) + countMoves rest

/-- Sum of `abs(dx)` over the wheel notifications of a sequence. -/
def scrollSumX : List (EventType × Instant) → Nat
  | [] => 0
  | p :: rest =>
      (match p.fst with | .wheel dx _ => dx.natAbs | _ => 0) + scrollSumX rest

/-- Sum of `abs(dy)` over the wheel notifications of a sequence. -/
def scrollSumY : List (EventType × Instant) → Nat
  | [] => 0
  | p :: rest =>
      (match p.fst with | .wheel _ dy => dy.natAbs | _ => 0) + scrollSumY rest

/-- The heartbeat data map (src/main.rs lines 357-363), as an
association list from key to counter value, in insertion order. -/
def makeDataMap (s : InputState) : List (String × Nat) :=
  [("presses", s.presses), ("clicks", s.clicks),
   ("deltaX", s.delta_x), ("deltaY", s.delta_y),
   ("scrollX", s.scroll_x), ("scrollY", s.scroll_y)]

/-- The reported event (`aw_models::Event`, built at src/main.rs lines
365-370): timestamp, duration in whole seconds
(`TimeDelta::seconds(polling_interval as i64)`), and the data map. -/
structure HeartbeatEvent where
  timestamp : Instant
  duration : Int
  data : List (String × Nat)
deriving Repr, DecidableEq

/-- Building the heartbeat event from the drained snapshot. -/
def makeHeartbeatEvent (timestamp : Instant) (interval : Nat) (s : InputState) :
    HeartbeatEvent :=
  { timestamp := timestamp, duration := (interval : Int), data := makeDataMap s }

/-- The merge/pulse window (src/main.rs line 373):
`polling_interval as f64 + 0.1`, rendered exactly as a rational. -/
def pulsetime (interval : Nat) : ℚ :=
  (interval : ℚ) + 1 / 10

/-- One sleep slice (src/main.rs lines 399-403): 100 ms if more than
100 ms remain, otherwise the whole remainder. Durations in
milliseconds. -/
def sliceOf (remaining : Nat) : Nat :=
  if remaining > 100 then 100 else remaining

/-- The slice-sleep loop (src/main.rs lines 396-406):
`while remaining > 0 && RUNNING { sleep(slice); remaining -= slice }`.
`flag i` is the value RUNNING is observed to hold at the i-th check;
the returned list is the sequence of slice durations actually slept. -/
def sleepSlices (flag : Nat → Bool) (remaining i : Nat) : List Nat :=
  if h : 0 < remaining ∧ flag i = true then
    sliceOf remaining :: sleepSlices flag (remaining - sliceOf remaining) (i + 1)
  else []
termination_by remaining
decreasing_by
  simp only [sliceOf]
  split <;> omega

/-- Outcome of the end of a heartbeat iteration: either a run of sleep
slices, or no sleep plus the missed-period warning. -/
inductive PeriodEnd where
  | slept (slices : List Nat)
  | missedWarning
deriving Repr, DecidableEq

/-- The end of a heartbeat iteration (src/main.rs lines 388-414):
if `elapsed < interval` sleep the remainder in slices, otherwise skip
sleeping and warn. Durations in milliseconds. -/
def heartbeatEnd (intervalMs elapsedMs : Nat) (flag : Nat → Bool) : PeriodEnd :=
  if elapsedMs < intervalMs then
    .slept (sleepSlices flag (intervalMs - elapsedMs) 0)
  else .missedWarning

/-- A single callback application adds exactly the per-kind
contribution of §4.1 to the `presses` counter. -/
theorem applyEvent_presses (e : EventType) (now : Instant) (s : InputState) :
    (applyEvent e now s).presses
      = s.presses + (match e with | .keyPress _ => 1 | _ => 0) := by
  cases e <;> simp [applyEvent, EventType.classified]

theorem applyEvent_clicks (e : EventType) (now : Instant) (s : InputState) :
    (applyEvent e now s).clicks
      = s.clicks + (match e with | .buttonPress _ => 1 | _ => 0) := by
  cases e <;> simp [applyEvent, EventType.classified]

theorem applyEvent_delta_x (e : EventType) (now : Instant) (s : InputState) :
    (applyEvent e now s).delta_x
      = s.delta_x + (match e with | .mouseMove _ _ => 1 | _ => 0) := by
  cases e <;> simp [applyEvent, EventType.classified]

theorem applyEvent_delta_y (e : EventType) (now : Instant) (s : InputState) :
    (applyEvent e now s).delta_y
      = s.delta_y + (match e with | .mouseMove _ _ => 1 | _ => 0) := by
  cases e <;> simp [applyEvent, EventType.classified]

theorem applyEvent_scroll_x (e : EventType) (now : Instant) (s : InputState) :
    (applyEvent e now s).scroll_x
      = s.scroll_x + (match e with | .wheel dx _ => dx.natAbs | _ => 0) := by
  cases e <;> simp [applyEvent, EventType.classified]

theorem applyEvent_scroll_y (e : EventType) (now : Instant) (s : InputState) :
    (applyEvent e now s).scroll_y
      = s.scroll_y + (match e with | .wheel _ dy => dy.natAbs | _ => 0) := by
  cases e <;> simp [applyEvent, EventType.classified]

theorem applyEvents_cons (p : EventType × Instant) (rest : List (EventType × Instant))
    (s : InputState) :
    applyEvents (p :: rest) s = applyEvents rest (applyEvent p.fst p.snd s) := by
  simp [applyEvents]

/-- Folding a sequence of notifications adds the per-kind counts of
§4.1 to every counter. -/
theorem applyEvents_counters (events : List (EventType × Instant)) (s : InputState) :
    (applyEvents events s).presses = s.presses + countPresses events
    ∧ (applyEvents events s).clicks = s.clicks + countClicks events
    ∧ (applyEvents events s).delta_x = s.delta_x + countMoves events
    ∧ (applyEvents events s).delta_y = s.delta_y + countMoves events
    ∧ (applyEvents events s).scroll_x = s.scroll_x + scrollSumX events
    ∧ (applyEvents events s).scroll_y = s.scroll_y + scrollSumY events := by
  induction events generalizing s with
  | nil =>
      simp [applyEvents, countPresses, countClicks, countMoves, scrollSumX, scrollSumY]
  | cons p rest ih =>
      obtain ⟨h1, h2, h3, h4, h5, h6⟩ := ih (applyEvent p.fst p.snd s)
      refine ⟨?_, ?_, ?_, ?_, ?_, ?_⟩ <;>
        rw [applyEvents_cons] <;>
        simp only [h1, h2, h3, h4, h5, h6, countPresses, countClicks, countMoves,
          scrollSumX, scrollSumY, applyEvent_presses, applyEvent_clicks,
          applyEvent_delta_x, applyEvent_delta_y, applyEvent_scroll_x,
          applyEvent_scroll_y] <;>
        omega

/-- The concrete scenario sequence of §8: 3 key-presses, 2
button-presses, 5 pointer-moves, one wheel event with delta (-4, 7). -/
def scenarioEvents : List (EventType × Instant) :=
  [(.keyPress 0, 1), (.keyPress 1, 2), (.keyPress 2, 3),
   (.buttonPress 0, 4), (.buttonPress 1, 5),
   (.mouseMove 10 20, 6), (.mouseMove 0 0, 7), (.mouseMove 3 4, 8),
   (.mouseMove 5 5, 9), (.mouseMove 7 7, 10),
   (.wheel (-4) 7, 11)]

/-- C1: for every sequence of notifications applied to a freshly
drained state, the next drain's snapshot counters are the exact
per-kind sums of §4.1 (key-presses, button-presses, move occurrences
counted once into both deltas, absolute wheel magnitudes); the §8
scenario drains to {presses 3, clicks 2, delta 5/5, scroll 4/7}; and a
zero-event period drains to all-zero counters with `last_activity`
unchanged. -/
theorem drained_snapshot_counts (la n : Instant) (events : List (EventType × Instant)) :
    ((drain n (applyEvents events (InputState.default la))).fst.presses
        = countPresses events
      ∧ (drain n (applyEvents events (InputState.default la))).fst.clicks
        = countClicks events
      ∧ (drain n (applyEvents events (InputState.default la))).fst.delta_x
        = countMoves events
      ∧ (drain n (applyEvents events (InputState.default la))).fst.delta_y
        = countMoves events
      ∧ (drain n (applyEvents events (InputState.default la))).fst.scroll_x
        = scrollSumX events
      ∧ (drain n (applyEvents events (InputState.default la))).fst.scroll_y
        = scrollSumY events)
    ∧ ((drain 0 (applyEvents scenarioEvents (InputState.default 0))).fst.presses = 3
      ∧ (drain 0 (applyEvents scenarioEvents (InputState.default 0))).fst.clicks = 2
      ∧ (drain 0 (applyEvents scenarioEvents (InputState.default 0))).fst.delta_x = 5
      ∧ (drain 0 (applyEvents scenarioEvents (InputState.default 0))).fst.delta_y = 5
      ∧ (drain 0 (applyEvents scenarioEvents (InputState.default 0))).fst.scroll_x = 4
      ∧ (drain 0 (applyEvents scenarioEvents (InputState.default 0))).fst.scroll_y = 7)
    ∧ (drain n (applyEvents [] (InputState.default la))).fst = InputState.default la := by
  refine ⟨?_, by decide, by rfl⟩
  obtain ⟨h1, h2, h3, h4, h5, h6⟩ :=
    applyEvents_counters events (InputState.default la)
  exact ⟨by simp only [drain]; rw [h1]; simp [InputState.default],
    by simp only [drain]; rw [h2]; simp [InputState.default],
    by simp only [drain]; rw [h3]; simp [InputState.default],
    by simp only [drain]; rw [h4]; simp [InputState.default],
    by simp only [drain]; rw [h5]; simp [InputState.default],
    by simp only [drain]; rw [h6]; simp [InputState.default]⟩

/-- C2 fails on the code as stated: a wheel notification with both
deltas zero is classified, so `update_activity` is set and
`last_activity` moves to the current instant, yet no counter is
incremented. Concrete input: `Wheel { delta_x: 0, delta_y: 0 }`
arriving at instant 5 on the freshly initialized state. -/
theorem wheel_zero_updates_last_activity :
    (applyEvent (.wheel 0 0) 5 (InputState.default 0)).presses
        = (InputState.default 0).presses
    ∧ (applyEvent (.wheel 0 0) 5 (InputState.default 0)).clicks
        = (InputState.default 0).clicks
    ∧ (applyEvent (.wheel 0 0) 5 (InputState.default 0)).delta_x
        = (InputState.default 0).delta_x
    ∧ (applyEvent (.wheel 0 0) 5 (InputState.default 0)).delta_y
        = (InputState.default 0).delta_y
    ∧ (applyEvent (.wheel 0 0) 5 (InputState.default 0)).scroll_x
        = (InputState.default 0).scroll_x
    ∧ (applyEvent (.wheel 0 0) 5 (InputState.default 0)).scroll_y
        = (InputState.default 0).scroll_y
    ∧ (applyEvent (.wheel 0 0) 5 (InputState.default 0)).last_activity
        ≠ (InputState.default 0).last_activity := by
  decide

/-- C2 (amended): `last_activity` is set to the current instant exactly
when the event is a classified kind — key-press, button-press,
pointer-move or wheel, a wheel event marking activity even when both of
its deltas are zero — and ignored kinds (key-up, button-up) leave the
whole state unchanged. -/
theorem last_activity_characterization (e : EventType) (now : Instant)
    (s : InputState) (k b : Nat) :
    (applyEvent e now s).last_activity
      = (if e.classified then now else s.last_activity)
    ∧ applyEvent (.keyRelease k) now s = s
    ∧ applyEvent (.buttonRelease b) now s = s := by
  refine ⟨?_, by simp [applyEvent, EventType.classified],
    by simp [applyEvent, EventType.classified]⟩
  cases e <;> simp [applyEvent, EventType.classified]

/-- C3: a successful drain returns the pre-drain state as the snapshot
(all six counters and `last_activity`), and leaves the shared state
with zero counters and `last_activity` carried forward unchanged. -/
theorem drain_frame (n : Instant) (s : InputState) :
    (drain n s).fst = s
    ∧ (drain n s).snd.presses = 0
    ∧ (drain n s).snd.clicks = 0
    ∧ (drain n s).snd.delta_x = 0
    ∧ (drain n s).snd.delta_y = 0
    ∧ (drain n s).snd.scroll_x = 0
    ∧ (drain n s).snd.scroll_y = 0
    ∧ (drain n s).snd.last_activity = s.last_activity := by
  refine ⟨rfl, ?_⟩
  simp [drain, InputState.default]

/-- C4: whenever the listener callback observes the RUNNING flag false,
it exits the process and the shared state is untouched, whatever the
event, the instant and the lock outcome would have been. -/
theorem listener_exits_on_flag (lockOk : Bool) (e : EventType) (now : Instant)
    (s : InputState) :
    listenerCallback false lockOk e now s = (CallbackAction.exitProcess, s) := by
  simp [listenerCallback]

/-- C5: a failed lock acquisition is never fatal — the listener drops
the event and continues with the shared state unchanged, and the
heartbeat drain substitutes a snapshot whose six counters are all
zero. -/
theorem lock_failure_nonfatal (e : EventType) (now : Instant) (s t : InputState)
    (n : Instant) :
    listenerCallback true false e now s = (CallbackAction.continueListening, s)
    ∧ (drainStep false n t).fst.presses = 0
    ∧ (drainStep false n t).fst.clicks = 0
    ∧ (drainStep false n t).fst.delta_x = 0
    ∧ (drainStep false n t).fst.delta_y = 0
    ∧ (drainStep false n t).fst.scroll_x = 0
    ∧ (drainStep false n t).fst.scroll_y = 0 := by
  simp [listenerCallback, drainStep, InputState.default]

/-- C6: the heartbeat event's duration is exactly the configured
polling interval (in seconds) and the pulse window is exactly the
interval plus 0.1, for every drained snapshot — two arbitrary snapshots
give the same duration, and `pulsetime` does not depend on the snapshot
at all. -/
theorem heartbeat_duration_pulsetime (ts : Instant) (interval : Nat)
    (s t : InputState) :
    (makeHeartbeatEvent ts interval s).duration = (interval : Int)
    ∧ pulsetime interval = (interval : ℚ) + 1 / 10
    ∧ (makeHeartbeatEvent ts interval s).duration
        = (makeHeartbeatEvent ts interval t).duration := by
  exact ⟨rfl, rfl, rfl⟩

/-- C8: draining an already-drained state (no intervening events)
yields an all-zero-counter snapshot whose `last_activity` equals the
first snapshot's. -/
theorem drain_idempotent_safe (n1 n2 : Instant) (s : InputState) :
    (drain n2 (drain n1 s).snd).fst.presses = 0
    ∧ (drain n2 (drain n1 s).snd).fst.clicks = 0
    ∧ (drain n2 (drain n1 s).snd).fst.delta_x = 0
    ∧ (drain n2 (drain n1 s).snd).fst.delta_y = 0
    ∧ (drain n2 (drain n1 s).snd).fst.scroll_x = 0
    ∧ (drain n2 (drain n1 s).snd).fst.scroll_y = 0
    ∧ (drain n2 (drain n1 s).snd).fst.last_activity
        = (drain n1 s).fst.last_activity := by
  simp [drain, InputState.default]

/-- C9: when the heartbeat loop cannot take the lock, the shared state
is left completely unchanged (no counter reset, `last_activity`
untouched), and only the local snapshot is substituted — all-zero
counters with `last_activity` set to the fresh now-instant of
`Instant::now()`, not the prior value. -/
theorem failed_drain_preserves_state (n : Instant) (s : InputState) :
    (drainStep false n s).snd = s
    ∧ (drainStep false n s).fst.presses = 0
    ∧ (drainStep false n s).fst.clicks = 0
    ∧ (drainStep false n s).fst.delta_x = 0
    ∧ (drainStep false n s).fst.delta_y = 0
    ∧ (drainStep false n s).fst.scroll_x = 0
    ∧ (drainStep false n s).fst.scroll_y = 0
    ∧ (drainStep false n s).fst.last_activity = n := by
  simp [drainStep, InputState.default]

/-- C10: the reported data map has exactly the six camelCase keys
"presses", "clicks", "deltaX", "deltaY", "scrollX", "scrollY", each
mapped to the corresponding drained counter; neither the snake_case
field names nor `last_activity` appear. -/
theorem data_map_keys (s : InputState) :
    (makeDataMap s).map Prod.fst
      = ["presses", "clicks", "deltaX", "deltaY", "scrollX", "scrollY"]
    ∧ (makeDataMap s).length = 6
    ∧ (makeDataMap s).lookup "presses" = some s.presses
    ∧ (makeDataMap s).lookup "clicks" = some s.clicks
    ∧ (makeDataMap s).lookup "deltaX" = some s.delta_x
    ∧ (makeDataMap s).lookup "deltaY" = some s.delta_y
    ∧ (makeDataMap s).lookup "scrollX" = some s.scroll_x
    ∧ (makeDataMap s).lookup "scrollY" = some s.scroll_y
    ∧ (makeDataMap s).lookup "last_activity" = none
    ∧ (makeDataMap s).lookup "delta_x" = none
    ∧ (makeDataMap s).lookup "scroll_x" = none := by
  refine ⟨rfl, rfl, ?_, ?_, ?_, ?_, ?_, ?_, ?_, ?_, ?_⟩ <;> rfl

theorem sliceOf_pos (r : Nat) (h : 0 < r) : 0 < sliceOf r := by
  simp only [sliceOf]
  split <;> omega

theorem sliceOf_le (r : Nat) : sliceOf r ≤ r ∧ sliceOf r ≤ 100 := by
  simp only [sliceOf]
  split <;> omega

/-- When RUNNING stays true, the slices slept sum to exactly the
remaining time. -/
theorem sleepSlices_sum (flag : Nat → Bool) (hflag : ∀ i, flag i = true) :
    ∀ r i, (sleepSlices flag r i).sum = r := by
  intro r
  induction r using Nat.strong_induction_on with
  | _ r ih =>
    intro i
    rw [sleepSlices]
    split
    · rename_i h
      have hlt : r - sliceOf r < r := Nat.sub_lt h.1 (sliceOf_pos r h.1)
      have hsum := ih (r - sliceOf r) hlt (i + 1)
      have hle := (sliceOf_le r).1
      simp only [List.sum_cons, hsum]
      omega
    · rename_i h
      have hr : ¬ 0 < r := fun hpos => h ⟨hpos, hflag i⟩
      simp only [List.sum_nil]
      omega

/-- Every slice slept is at most 100 ms. -/
theorem sleepSlices_bounded (flag : Nat → Bool) :
    ∀ r i, ∀ x ∈ sleepSlices flag r i, x ≤ 100 := by
  intro r
  induction r using Nat.strong_induction_on with
  | _ r ih =>
    intro i x hx
    rw [sleepSlices] at hx
    split at hx
    · rename_i h
      rcases List.mem_cons.mp hx with hx1 | hx2
      · exact hx1 ▸ (sliceOf_le r).2
      · exact ih (r - sliceOf r) (Nat.sub_lt h.1 (sliceOf_pos r h.1)) (i + 1) x hx2
    · simp at hx

/-- The flag is re-checked before every slice: if the j-th check reads
false, at most j slices are slept in total (starting from check i ≤ j),
so a shutdown signal ends the sleep within one slice. -/
theorem sleepSlices_shutdown (flag : Nat → Bool) :
    ∀ r i j, i ≤ j → flag j = false →
      (sleepSlices flag r i).length ≤ j - i := by
  intro r
  induction r using Nat.strong_induction_on with
  | _ r ih =>
    intro i j hij hj
    rw [sleepSlices]
    split
    · rename_i h
      have hne : i ≠ j := fun he => by
        rw [he] at h
        exact absurd h.2 (by simp [hj])
      have hij1 : i + 1 ≤ j := by omega
      have := ih (r - sliceOf r) (Nat.sub_lt h.1 (sliceOf_pos r h.1)) (i + 1) j hij1 hj
      simp only [List.length_cons]
      omega
    · simp

/-- C7: at the end of a heartbeat iteration, if elapsed < interval the
loop sleeps exactly the remainder in slices each at most 100 ms,
re-checking the RUNNING flag before every slice so that once the flag
reads false no further slice is slept; if elapsed is not less than the
interval the loop sleeps nothing and emits the missed-period warning. -/
theorem heartbeat_sleep_behavior (intervalMs elapsedMs : Nat) (flag : Nat → Bool) :
    (elapsedMs < intervalMs →
      heartbeatEnd intervalMs elapsedMs flag
        = PeriodEnd.slept (sleepSlices flag (intervalMs - elapsedMs) 0)
      ∧ ((∀ i, flag i = true) →
          (sleepSlices flag (intervalMs - elapsedMs) 0).sum = intervalMs - elapsedMs)
      ∧ (∀ x ∈ sleepSlices flag (intervalMs - elapsedMs) 0, x ≤ 100)
      ∧ (∀ j, flag j = false →
          (sleepSlices flag (intervalMs - elapsedMs) 0).length ≤ j))
    ∧ (¬ elapsedMs < intervalMs →
        heartbeatEnd intervalMs elapsedMs flag = PeriodEnd.missedWarning) := by
  constructor
  · intro hlt
    refine ⟨by simp [heartbeatEnd, hlt], fun hf => sleepSlices_sum flag hf _ 0,
      sleepSlices_bounded flag _ 0, fun j hj => ?_⟩
    simpa using sleepSlices_shutdown flag (intervalMs - elapsedMs) 0 j (Nat.zero_le j) hj
  · intro hge
    simp [heartbeatEnd, hge]

/-- Witness for C7 at a concrete input: interval 1000 ms, elapsed
650 ms, RUNNING always true — the loop sleeps and the slices sum to the
350 ms remainder. -/
theorem heartbeat_sleep_behavior_witness :
    heartbeatEnd 1000 650 (fun _ => true)
      = PeriodEnd.slept (sleepSlices (fun _ => true) 350 0)
    ∧ (sleepSlices (fun _ => true) 350 0).sum = 350 := by
  have h := (heartbeat_sleep_behavior 1000 650 (fun _ => true)).1 (by decide)
  exact ⟨h.1, h.2.1 (fun i => rfl)⟩

end AwWatcherInput
